import Mathlib

/-
Verification of the two training notebooks of this repository:
"src/unnamed/part_000" and
"src/intro-to-pytorch/Part 3 - Training Neural Networks (Exercises).ipynb".
Each definition below is a shallow embedding transcribed from the notebook
source cells; comments name the cell a definition comes from.  Code cells are
numbered 1..17 for part_000 and 1..16 for the Exercises notebook, in source
order (the Exercises notebook lacks the trailing empty cell).
-/

namespace TrainingNotebooks

/-- Kinds of statements appearing in a training pass of the notebooks. -/
inductive TrainOp
  | flatten      -- images = images.view(...) or images.resize_(...)
  | zeroGrad     -- optimizer.zero_grad()
  | forward      -- output = model(images)
  | lossCompute  -- loss = criterion(output, labels)
  | backward     -- loss.backward()
  | step         -- optimizer.step()
  | accumulate   -- running_loss += loss.item()
deriving DecidableEq

/-- Per-batch body of the final training loop of part_000 (cell 15,
lines 571-583 of the file): view, zero_grad, forward, criterion, backward,
step, running_loss accumulation, in source order. -/
def part000PassBody : List TrainOp :=
  [TrainOp.flatten, TrainOp.zeroGrad, TrainOp.forward, TrainOp.lossCompute,
   TrainOp.backward, TrainOp.step, TrainOp.accumulate]

/-- Per-batch body of the final training loop of the Exercises notebook
(cell 15, lines 579-591 of that file); the statements are the same, in the
same order. -/
def exercisesPassBody : List TrainOp :=
  [TrainOp.flatten, TrainOp.zeroGrad, TrainOp.forward, TrainOp.lossCompute,
   TrainOp.backward, TrainOp.step, TrainOp.accumulate]

/-- The single-step demonstration of part_000 (cells 13 and 14): resize_,
zero_grad, forward, criterion, backward in cell 13, then optimizer.step()
in cell 14. -/
def part000SingleStepPass : List TrainOp :=
  [TrainOp.flatten, TrainOp.zeroGrad, TrainOp.forward, TrainOp.lossCompute,
   TrainOp.backward, TrainOp.step]

/-- The single-step demonstration of the Exercises notebook (its cells 13
and 14), identical statements in identical order. -/
def exercisesSingleStepPass : List TrainOp :=
  [TrainOp.flatten, TrainOp.zeroGrad, TrainOp.forward, TrainOp.lossCompute,
   TrainOp.backward, TrainOp.step]

/-- Number of occurrences of an operation in a pass body. -/
def countOp (o : TrainOp) : List TrainOp → Nat
  | [] => 0
  | a :: r => (if a = o then 1 else 0) + countOp o r

/-- Position of the first occurrence of an operation in a pass body
(length of the list if absent). -/
def firstIdx (o : TrainOp) : List TrainOp → Nat
  | [] => 0
  | a :: r => if a = o then 0 else firstIdx o r + 1

/-- A pass performs forward, loss, backward, step exactly once each and in
this order. -/
def passOrdered (p : List TrainOp) : Prop :=
  countOp TrainOp.forward p = 1 ∧ countOp TrainOp.lossCompute p = 1 ∧
  countOp TrainOp.backward p = 1 ∧ countOp TrainOp.step p = 1 ∧
  firstIdx TrainOp.forward p < firstIdx TrainOp.lossCompute p ∧
  firstIdx TrainOp.lossCompute p < firstIdx TrainOp.backward p ∧
  firstIdx TrainOp.backward p < firstIdx TrainOp.step p

instance (p : List TrainOp) : Decidable (passOrdered p) := by
  unfold passOrdered; infer_instance

/-- Observable events of the training loop: the inner for loop fetching one
batch from the loader, and the print in the for/else branch. -/
inductive TrainEv
  | consume (b : Nat)
  | printLoss (v : ℚ)

/-- Abstract state threaded through the training loop.  The parameter type
P abstracts the tensors held by the model; gradBuf records which batches
currently have gradients accumulated in the parameter .grad buffers;
stepLog records, for each optimizer.step() executed, the content of the
gradient buffers at that moment; epochLosses mirrors the values added to
running_loss in the current epoch. -/
structure TrainState (P : Type) where
  params : P
  gradBuf : List Nat
  lastLoss : ℚ
  runningLoss : ℚ
  epochLosses : List ℚ
  stepLog : List (List Nat)
  events : List TrainEv

/-- Effect of one statement of a training pass on the abstract state, for
the batch b currently in scope.  lossO gives the loss value of the model
parameters on a batch; upd is the optimizer update from the accumulated
gradients.  backward accumulates (PyTorch adds into .grad); zero_grad
clears; step reads the buffers as they are at that moment. -/
def execOp {P : Type} (lossO : P → Nat → ℚ) (upd : P → List Nat → P)
    (b : Nat) (s : TrainState P) : TrainOp → TrainState P
  | TrainOp.flatten => s
  | TrainOp.zeroGrad => { s with gradBuf := [] }
  | TrainOp.forward => s
  | TrainOp.lossCompute => { s with lastLoss := lossO s.params b }
  | TrainOp.backward => { s with gradBuf := s.gradBuf ++ [b] }
  | TrainOp.step => { s with params := upd s.params s.gradBuf,
                             stepLog := s.stepLog ++ [s.gradBuf] }
  | TrainOp.accumulate => { s with runningLoss := s.runningLoss + s.lastLoss,
                                   epochLosses := s.epochLosses ++ [s.lastLoss] }

/-- One iteration of the inner loop: fetch batch b from the loader, then run
the pass body. -/
def runBatch {P : Type} (lossO : P → Nat → ℚ) (upd : P → List Nat → P)
    (body : List TrainOp) (s : TrainState P) (b : Nat) : TrainState P :=
  body.foldl (execOp lossO upd b) { s with events := s.events ++ [TrainEv.consume b] }

/-- One iteration of the outer loop: running_loss = 0, the inner for loop
over every batch of the loader, then the for/else print of
running_loss/len(trainloader). -/
def runEpoch {P : Type} (lossO : P → Nat → ℚ) (upd : P → List Nat → P)
    (body : List TrainOp) (batches : List Nat) (s : TrainState P) : TrainState P :=
  let s1 := batches.foldl (runBatch lossO upd body)
    { s with runningLoss := 0, epochLosses := [] }
  { s1 with events := s1.events ++ [TrainEv.printLoss (s1.runningLoss / (batches.length : ℚ))] }

/-- Layers passed to nn.Sequential in the notebooks. -/
inductive Layer
  | linear (inFeatures outFeatures : Nat)
  | relu
  | logSoftmax (dim : Nat)

/-- Loss criteria constructed in the notebooks. -/
inductive LossKind
  | nllLoss
  | crossEntropyLoss

/-- Optimizers constructed in the notebooks. -/
inductive OptimKind
  | sgd (lr : ℚ)

/-- The configuration of a final training cell: model architecture, loss,
optimizer, epoch count and per-batch pass body. -/
structure TrainConfig where
  model : List Layer
  criterion : LossKind
  optimizer : OptimKind
  epochs : Nat
  passBody : List TrainOp

/-- Final training cell of part_000 (cell 15, lines 558-585): Sequential of
Linear 784-128, ReLU, Linear 128-64, ReLU, Linear 64-10, LogSoftmax dim 1;
NLLLoss; SGD with lr 0.003; epochs = 5. -/
def part000TrainConfig : TrainConfig :=
  { model := [Layer.linear 784 128, Layer.relu, Layer.linear 128 64,
              Layer.relu, Layer.linear 64 10, Layer.logSoftmax 1]
    criterion := LossKind.nllLoss
    optimizer := OptimKind.sgd (3 / 1000)
    epochs := 5
    passBody := part000PassBody }

/-- Final training cell of the Exercises notebook (cell 15, lines 565-593):
the same architecture, loss, optimizer, learning rate and epoch count. -/
def exercisesTrainConfig : TrainConfig :=
  { model := [Layer.linear 784 128, Layer.relu, Layer.linear 128 64,
              Layer.relu, Layer.linear 64 10, Layer.logSoftmax 1]
    criterion := LossKind.nllLoss
    optimizer := OptimKind.sgd (3 / 1000)
    epochs := 5
    passBody := exercisesPassBody }

/-- The whole final training cell: for e in range(epochs) around runEpoch. -/
def runTraining {P : Type} (cfg : TrainConfig) (lossO : P → Nat → ℚ)
    (upd : P → List Nat → P) (batches : List Nat) (s : TrainState P) : TrainState P :=
  (List.range cfg.epochs).foldl
    (fun t _ => runEpoch lossO upd cfg.passBody batches t) s

/-- The per-batch loss values produced along one epoch, with the parameters
evolving by one optimizer update per batch. -/
def passLosses {P : Type} (lossO : P → Nat → ℚ) (upd : P → List Nat → P) :
    P → List Nat → List ℚ
  | _, [] => []
  | p, b :: r => lossO p b :: passLosses lossO upd (upd p [b]) r

/-- Syntactic summary of one code cell: how many for loops, while loops,
if/elif statements, try/except handlers, with blocks, augmented assignments
(running_loss += ...), and def/class statements it contains. -/
structure CellShape where
  forLoops : Nat
  whileLoops : Nat
  conditionals : Nat
  tryExcepts : Nat
  withBlocks : Nat
  augAssigns : Nat
  defStmts : Nat
deriving DecidableEq

/-- A cell with none of the above constructs: a straight-line sequence of
assignments and calls. -/
def plainCell : CellShape :=
  { forLoops := 0, whileLoops := 0, conditionals := 0, tryExcepts := 0,
    withBlocks := 0, augAssigns := 0, defStmts := 0 }

/-- Shape of the final training cell (cell 15 of both notebooks): two nested
for loops (epochs and trainloader), a for/else, and the running_loss
augmented assignment; no conditional, no try/except, no definitions. -/
def trainCellShape : CellShape :=
  { forLoops := 2, whileLoops := 0, conditionals := 0, tryExcepts := 0,
    withBlocks := 0, augAssigns := 1, defStmts := 0 }

/-- Shape of the visualization cell (cell 16): a with torch.no_grad() block
and otherwise straight-line calls. -/
def vizCellShape : CellShape :=
  { plainCell with withBlocks := 1 }

/-- The 17 code cells of part_000 in source order: cells 1-14 are
straight-line sequences of calls, cell 15 is the training loop, cell 16 the
visualization cell, cell 17 is empty. -/
def part000CellShapes : List CellShape :=
  [plainCell, plainCell, plainCell, plainCell, plainCell, plainCell,
   plainCell, plainCell, plainCell, plainCell, plainCell, plainCell,
   plainCell, plainCell, trainCellShape, vizCellShape, plainCell]

/-- The 16 code cells of the Exercises notebook in source order: the same
cells, without the trailing empty cell. -/
def exercisesCellShapes : List CellShape :=
  [plainCell, plainCell, plainCell, plainCell, plainCell, plainCell,
   plainCell, plainCell, plainCell, plainCell, plainCell, plainCell,
   plainCell, plainCell, trainCellShape, vizCellShape]

/-- A cell is straight-line when it has no loop, no conditional and no
accumulator logic. -/
def straightLine (c : CellShape) : Bool :=
  c.forLoops == 0 && c.whileLoops == 0 && c.conditionals == 0 && c.augAssigns == 0

/-- Python semantics of an exception raised by a call inside a cell: it is
caught only by an enclosing try/except; a cell without one propagates the
error to the caller unchanged. -/
def runCellRaise (c : CellShape) (e : Nat) : Except Nat Unit :=
  if c.tryExcepts = 0 then Except.error e else Except.ok ()

/-- Framework facilities (and the one non-framework helper module) invoked
by the notebook cells. -/
inductive Facility
  | tensorConstruction   -- torch.randn
  | autogradFlag         -- requires_grad=True, torch.no_grad()
  | sequentialContainer  -- nn.Sequential, model(...), model.parameters()
  | linearLayer          -- nn.Linear
  | activationLayer      -- nn.ReLU
  | logSoftmaxLayer      -- nn.LogSoftmax
  | nllLoss              -- nn.NLLLoss and its call
  | sgdOptimizer         -- optim.SGD, zero_grad, step
  | datasetLoader        -- transforms, datasets.MNIST, DataLoader, next(iter(..))
  | crossEntropyLoss     -- nn.CrossEntropyLoss and its call
  | tensorPow            -- y = x**2
  | tensorMean           -- z = y.mean()
  | tensorExp            -- ps = torch.exp(logps)
  | tensorReshape        -- .view(...), .resize_(...)
  | tensorDiv            -- print(x/2)
  | tensorIndex          -- images[0]
  | weightAccess         -- model[0].weight (container indexing + weight attribute)
  | gradInspection       -- .grad, .grad_fn
  | backwardCall         -- z.backward(), loss.backward()
  | scalarItem           -- loss.item()
  | localHelper          -- import helper; helper.view_classify(...)
deriving DecidableEq

/-- Modelled from the spec: the external-interface surface listed in spec
section 6 — tensor construction, automatic differentiation flags, a
sequential-model container, linear and activation layers, log-softmax and
negative-log-likelihood loss functions, an SGD optimizer, and a
dataset/loader utility. -/
def specListedSurface : List Facility :=
  [Facility.tensorConstruction, Facility.autogradFlag,
   Facility.sequentialContainer, Facility.linearLayer,
   Facility.activationLayer, Facility.logSoftmaxLayer, Facility.nllLoss,
   Facility.sgdOptimizer, Facility.datasetLoader]

/-- Facilities invoked by each code cell of part_000, flattened in cell
order (duplicates kept). -/
def part000Facilities : List Facility :=
  [ -- cell 1: transforms / MNIST / DataLoader
   Facility.datasetLoader,
   -- cell 2: Sequential, Linear, ReLU, CrossEntropyLoss, loader, view
   Facility.sequentialContainer, Facility.linearLayer,
   Facility.activationLayer, Facility.crossEntropyLoss,
   Facility.datasetLoader, Facility.tensorReshape,
   -- cell 3: Sequential, Linear, ReLU, LogSoftmax, NLLLoss, loader, view
   Facility.sequentialContainer, Facility.linearLayer,
   Facility.activationLayer, Facility.logSoftmaxLayer, Facility.nllLoss,
   Facility.datasetLoader, Facility.tensorReshape,
   -- cell 4: torch.randn(2,2, requires_grad=True)
   Facility.tensorConstruction, Facility.autogradFlag,
   -- cell 5: y = x**2
   Facility.tensorPow,
   -- cell 6: y.grad_fn
   Facility.gradInspection,
   -- cell 7: z = y.mean()
   Facility.tensorMean,
   -- cell 8: x.grad
   Facility.gradInspection,
   -- cell 9: z.backward(), print(x.grad), print(x/2)
   Facility.backwardCall, Facility.gradInspection, Facility.tensorDiv,
   -- cell 10: Sequential, Linear, ReLU, LogSoftmax, NLLLoss, loader, view
   Facility.sequentialContainer, Facility.linearLayer,
   Facility.activationLayer, Facility.logSoftmaxLayer, Facility.nllLoss,
   Facility.datasetLoader, Facility.tensorReshape,
   -- cell 11: model[0].weight.grad twice, loss.backward()
   Facility.weightAccess, Facility.gradInspection, Facility.backwardCall,
   -- cell 12: optim.SGD(model.parameters(), lr=0.01)
   Facility.sgdOptimizer, Facility.sequentialContainer,
   -- cell 13: model[0].weight, loader, resize_, zero_grad, forward,
   -- criterion, backward, model[0].weight.grad
   Facility.weightAccess, Facility.datasetLoader, Facility.tensorReshape,
   Facility.sgdOptimizer, Facility.sequentialContainer, Facility.nllLoss,
   Facility.backwardCall, Facility.weightAccess, Facility.gradInspection,
   -- cell 14: optimizer.step(), model[0].weight
   Facility.sgdOptimizer, Facility.sequentialContainer, Facility.weightAccess,
   -- cell 15: the training loop
   Facility.sequentialContainer, Facility.linearLayer,
   Facility.activationLayer, Facility.logSoftmaxLayer, Facility.nllLoss,
   Facility.sgdOptimizer, Facility.datasetLoader, Facility.tensorReshape,
   Facility.backwardCall, Facility.scalarItem,
   -- cell 16: helper.view_classify, images[0], view, no_grad, forward,
   -- torch.exp, loader
   Facility.localHelper, Facility.tensorIndex, Facility.tensorReshape,
   Facility.autogradFlag, Facility.sequentialContainer, Facility.tensorExp,
   Facility.datasetLoader]
   -- cell 17: empty

/-- Facilities invoked by each code cell of the Exercises notebook: the same
cells 1-16 (there is no empty cell 17). -/
def exercisesFacilities : List Facility :=
  [Facility.datasetLoader,
   Facility.sequentialContainer, Facility.linearLayer,
   Facility.activationLayer, Facility.crossEntropyLoss,
   Facility.datasetLoader, Facility.tensorReshape,
   Facility.sequentialContainer, Facility.linearLayer,
   Facility.activationLayer, Facility.logSoftmaxLayer, Facility.nllLoss,
   Facility.datasetLoader, Facility.tensorReshape,
   Facility.tensorConstruction, Facility.autogradFlag,
   Facility.tensorPow,
   Facility.gradInspection,
   Facility.tensorMean,
   Facility.gradInspection,
   Facility.backwardCall, Facility.gradInspection, Facility.tensorDiv,
   Facility.sequentialContainer, Facility.linearLayer,
   Facility.activationLayer, Facility.logSoftmaxLayer, Facility.nllLoss,
   Facility.datasetLoader, Facility.tensorReshape,
   Facility.weightAccess, Facility.gradInspection, Facility.backwardCall,
   Facility.sgdOptimizer, Facility.sequentialContainer,
   Facility.weightAccess, Facility.datasetLoader, Facility.tensorReshape,
   Facility.sgdOptimizer, Facility.sequentialContainer, Facility.nllLoss,
   Facility.backwardCall, Facility.weightAccess, Facility.gradInspection,
   Facility.sgdOptimizer, Facility.sequentialContainer, Facility.weightAccess,
   Facility.sequentialContainer, Facility.linearLayer,
   Facility.activationLayer, Facility.logSoftmaxLayer, Facility.nllLoss,
   Facility.sgdOptimizer, Facility.datasetLoader, Facility.tensorReshape,
   Facility.backwardCall, Facility.scalarItem,
   Facility.localHelper, Facility.tensorIndex, Facility.tensorReshape,
   Facility.autogradFlag, Facility.sequentialContainer, Facility.tensorExp,
   Facility.datasetLoader]

/-- Facilities the notebooks actually invoke beyond the surface listed in
spec section 6. -/
def extraFacilities : List Facility :=
  [Facility.crossEntropyLoss, Facility.tensorPow, Facility.tensorMean,
   Facility.tensorExp, Facility.tensorReshape, Facility.tensorDiv,
   Facility.tensorIndex, Facility.weightAccess, Facility.gradInspection,
   Facility.backwardCall, Facility.scalarItem, Facility.localHelper]

/-- An n-dimensional array abstracted to its shape and its flat element
storage in row-major order. -/
structure Tensor (α : Type) where
  shape : List Nat
  data : List α

/-- Semantics of the in-place t.resize_(s): the storage is cut or grown to
the product of the new sizes; kept elements come from the old storage in
order, any extra elements are uninitialized memory, modelled by the
arbitrary value pad. -/
def tensorResizeInPlace {α : Type} (pad : α) (t : Tensor α) (s : List Nat) : Tensor α :=
  { shape := s,
    data := t.data.take s.prod ++ List.replicate (s.prod - t.data.length) pad }

/-- Semantics of t.view(t.shape[0], -1): requires the element count to be
divisible by the leading size and reshapes without touching the data;
errors (none) otherwise. -/
def tensorViewFlatten {α : Type} (t : Tensor α) : Option (Tensor α) :=
  let rows := t.shape.headD 0
  if rows ≠ 0 ∧ t.data.length % rows = 0 then
    some { shape := [rows, t.data.length / rows], data := t.data }
  else none

/-- How a flattening site reshapes its input. -/
inductive FlattenMethod
  | viewBatchAuto            -- images.view(images.shape[0], -1)
  | resizeFixed (rows cols : Nat)  -- images.resize_(64, 784)
  | viewFixed (dims : List Nat)    -- img.view(1, 784)
deriving DecidableEq

/-- A flattening site: notebook (0 = part_000, 1 = Exercises), code cell
number, and the method the source uses there. -/
structure FlattenSite where
  notebook : Nat
  cell : Nat
  method : FlattenMethod
deriving DecidableEq

/-- Every flattening in the two notebooks: cells 2, 3, 10 and the training
loop (cell 15) use view(shape[0], -1); the single-step cell 13 uses
resize_(64, 784); the visualization cell 16 flattens one image with
view(1, 784). -/
def flattenSites : List FlattenSite :=
  [⟨0, 2, FlattenMethod.viewBatchAuto⟩, ⟨0, 3, FlattenMethod.viewBatchAuto⟩,
   ⟨0, 10, FlattenMethod.viewBatchAuto⟩, ⟨0, 13, FlattenMethod.resizeFixed 64 784⟩,
   ⟨0, 15, FlattenMethod.viewBatchAuto⟩, ⟨0, 16, FlattenMethod.viewFixed [1, 784]⟩,
   ⟨1, 2, FlattenMethod.viewBatchAuto⟩, ⟨1, 3, FlattenMethod.viewBatchAuto⟩,
   ⟨1, 10, FlattenMethod.viewBatchAuto⟩, ⟨1, 13, FlattenMethod.resizeFixed 64 784⟩,
   ⟨1, 15, FlattenMethod.viewBatchAuto⟩, ⟨1, 16, FlattenMethod.viewFixed [1, 784]⟩]

/-- The five Training loss values recorded in the output of the final
training cell of part_000 (lines 549-553), as exact decimals. -/
def part000PrintedLosses : List ℚ :=
  [19532823571518285 / 10 ^ 16, 878406940524512 / 10 ^ 15,
   5222327950031265 / 10 ^ 16, 42386719128533973 / 10 ^ 17,
   37874325701613415 / 10 ^ 17]

/-- The five Training loss values recorded in the output of the final
training cell of the Exercises notebook (lines 556-560). -/
def exercisesPrintedLosses : List ℚ :=
  [19123346843699147 / 10 ^ 16, 8706545072323733 / 10 ^ 16,
   5380584762803019 / 10 ^ 16, 4390944388788392 / 10 ^ 16,
   39253350822274874 / 10 ^ 17]

/-- A list of rationals is strictly decreasing from each entry to the next. -/
def strictlyDecreasing (l : List ℚ) : Prop :=
  List.Chain' (fun a b => b < a) l

section Lemmas

variable {P : Type} (lossO : P → Nat → ℚ) (upd : P → List Nat → P)

theorem runBatch_eq (s : TrainState P) (b : Nat) :
    runBatch lossO upd part000PassBody s b =
      { params := upd s.params [b]
        gradBuf := [b]
        lastLoss := lossO s.params b
        runningLoss := s.runningLoss + lossO s.params b
        epochLosses := s.epochLosses ++ [lossO s.params b]
        stepLog := s.stepLog ++ [[b]]
        events := s.events ++ [TrainEv.consume b] } := rfl

theorem foldl_runBatch_core (batches : List Nat) :
    ∀ s : TrainState P,
      (batches.foldl (runBatch lossO upd part000PassBody) s).events
          = s.events ++ batches.map TrainEv.consume
      ∧ (batches.foldl (runBatch lossO upd part000PassBody) s).stepLog
          = s.stepLog ++ batches.map (fun b => [b])
      ∧ (batches.foldl (runBatch lossO upd part000PassBody) s).epochLosses
          = s.epochLosses ++ passLosses lossO upd s.params batches
      ∧ (batches.foldl (runBatch lossO upd part000PassBody) s).runningLoss
          = s.runningLoss + (passLosses lossO upd s.params batches).sum := by
  induction batches with
  | nil => intro s; simp [passLosses]
  | cons b r ih =>
      intro s
      have h := ih (runBatch lossO upd part000PassBody s b)
      rw [List.foldl_cons]
      refine ⟨?_, ?_, ?_, ?_⟩
      · rw [h.1, runBatch_eq]; simp
      · rw [h.2.1, runBatch_eq]; simp
      · rw [h.2.2.1, runBatch_eq]; simp [passLosses]
      · rw [h.2.2.2, runBatch_eq]; simp [passLosses]; ring

theorem runEpoch_core (batches : List Nat) (s : TrainState P) :
    (runEpoch lossO upd part000PassBody batches s).events
        = s.events ++ batches.map TrainEv.consume
            ++ [TrainEv.printLoss
                 ((passLosses lossO upd s.params batches).sum / (batches.length : ℚ))]
    ∧ (runEpoch lossO upd part000PassBody batches s).stepLog
        = s.stepLog ++ batches.map (fun b => [b])
    ∧ (runEpoch lossO upd part000PassBody batches s).epochLosses
        = passLosses lossO upd s.params batches
    ∧ (runEpoch lossO upd part000PassBody batches s).runningLoss
        = (passLosses lossO upd s.params batches).sum := by
  have h := foldl_runBatch_core lossO upd batches
    { s with runningLoss := 0, epochLosses := [] }
  unfold runEpoch
  refine ⟨?_, ?_, ?_, ?_⟩
  · simp only [h.1, h.2.2.2]; simp
  · simp only [h.2.1]
  · simp only [h.2.2.1]; simp
  · simp only [h.2.2.2]; simp

theorem passLosses_length (batches : List Nat) :
    ∀ p : P, (passLosses lossO upd p batches).length = batches.length := by
  induction batches with
  | nil => intro p; simp [passLosses]
  | cons b r ih => intro p; simp [passLosses, ih]

theorem rangeFold_stepLog (batches : List Nat) (n : Nat) :
    ∀ s : TrainState P,
      ((List.range n).foldl
          (fun t _ => runEpoch lossO upd part000PassBody batches t) s).stepLog
        = s.stepLog ++ (List.replicate n (batches.map fun b => [b])).flatten := by
  induction n with
  | zero => intro s; simp
  | succ k ih =>
      intro s
      rw [List.range_succ, List.foldl_append, List.foldl_cons, List.foldl_nil]
      rw [(runEpoch_core lossO upd batches _).2.1, ih s]
      rw [List.replicate_succ']
      simp [List.flatten_append]

theorem runEpoch_print_mean (batches : List Nat) (s : TrainState P) :
    (runEpoch lossO upd part000PassBody batches s).events
        = s.events ++ batches.map TrainEv.consume
            ++ [TrainEv.printLoss
                 ((runEpoch lossO upd part000PassBody batches s).epochLosses.sum
                    / (batches.length : ℚ))]
    ∧ (runEpoch lossO upd part000PassBody batches s).epochLosses.length
        = batches.length := by
  have h := runEpoch_core lossO upd batches s
  exact ⟨by rw [h.2.2.1]; exact h.1, by rw [h.2.2.1]; exact passLosses_length lossO upd batches s.params⟩

end Lemmas

/-- Claim C1: in the final training cell of each notebook, the five
per-epoch Training loss values printed (recorded in the committed cell
output) form a strictly decreasing sequence across the five epochs. -/
theorem c1_printed_losses_strictly_decreasing :
    part000PrintedLosses.length = 5 ∧ exercisesPrintedLosses.length = 5 ∧
    strictlyDecreasing part000PrintedLosses ∧
    strictlyDecreasing exercisesPrintedLosses := by
  refine ⟨rfl, rfl, ?_, ?_⟩ <;>
    norm_num [strictlyDecreasing, part000PrintedLosses, exercisesPrintedLosses]

/-- Claim C2: every training pass in both notebooks (the per-batch body of
the final training loop and the single-step demonstration of cells 13-14)
performs forward, loss computation, backward and optimizer step exactly
once each, in that fixed order. -/
theorem c2_pass_operation_order :
    passOrdered part000PassBody ∧ passOrdered part000SingleStepPass ∧
    passOrdered exercisesPassBody ∧ passOrdered exercisesSingleStepPass := by
  decide

/-- Claim C3: one iteration of the outer loop of the final training cell
consumes every batch produced by the loader exactly once, in loader order,
and only afterwards emits the single print of the epoch's loss value. -/
theorem c3_epoch_is_one_full_pass :
    ∀ (P : Type) (lossO : P → Nat → ℚ) (upd : P → List Nat → P)
      (batches : List Nat) (s : TrainState P),
      (∃ v, (runEpoch lossO upd part000PassBody batches s).events
          = s.events ++ batches.map TrainEv.consume ++ [TrainEv.printLoss v]) ∧
      (∃ v, (runEpoch lossO upd exercisesPassBody batches s).events
          = s.events ++ batches.map TrainEv.consume ++ [TrainEv.printLoss v]) :=
  fun _ lossO upd batches s =>
    ⟨⟨_, (runEpoch_core lossO upd batches s).1⟩,
     ⟨_, (runEpoch_core lossO upd batches s).1⟩⟩

/-- Claim C4: the two notebooks' final training cells are equivalent — same
network (Linear 784-128, ReLU, Linear 128-64, ReLU, Linear 64-10,
LogSoftmax over dim 1), NLL loss, SGD with learning rate 0.003, 5 epochs,
same per-batch pass — so on the same input data both compute the same
result. -/
theorem c4_notebooks_equivalent :
    part000TrainConfig = exercisesTrainConfig ∧
    part000TrainConfig.model = [Layer.linear 784 128, Layer.relu,
      Layer.linear 128 64, Layer.relu, Layer.linear 64 10, Layer.logSoftmax 1] ∧
    part000TrainConfig.criterion = LossKind.nllLoss ∧
    part000TrainConfig.optimizer = OptimKind.sgd (3 / 1000) ∧
    part000TrainConfig.epochs = 5 ∧
    part000TrainConfig.passBody = exercisesTrainConfig.passBody ∧
    ∀ (P : Type) (lossO : P → Nat → ℚ) (upd : P → List Nat → P)
      (batches : List Nat) (s : TrainState P),
      runTraining part000TrainConfig lossO upd batches s
        = runTraining exercisesTrainConfig lossO upd batches s :=
  ⟨rfl, rfl, rfl, rfl, rfl, rfl, fun _ _ _ _ _ => rfl⟩

/-- Claim C5 as stated is false: the final training cell of each notebook is
not a sequence of individual one-line library calls — it contains two
nested for loops and a running-loss accumulator. -/
theorem c5_counterexample :
    ¬ ((part000CellShapes ++ exercisesCellShapes).all straightLine = true) ∧
    trainCellShape ∈ part000CellShapes ∧ trainCellShape ∈ exercisesCellShapes ∧
    straightLine trainCellShape = false ∧ trainCellShape.forLoops = 2 := by
  decide

/-- Claim C5 amended: every code cell of both notebooks other than the
final training cell is a straight-line sequence of library calls with no
loop, conditional or accumulator logic; the final training cell alone
contains two nested for loops (with a for/else) and the running_loss
accumulator, and even it has no conditional and no failure handling. -/
theorem c5_amended_straight_line_except_training_cell :
    part000CellShapes.filter (fun c => !straightLine c) = [trainCellShape] ∧
    exercisesCellShapes.filter (fun c => !straightLine c) = [trainCellShape] ∧
    trainCellShape.forLoops = 2 ∧ trainCellShape.augAssigns = 1 ∧
    trainCellShape.conditionals = 0 ∧ trainCellShape.tryExcepts = 0 := by
  decide

/-- Claim C6 as stated is false: the notebooks call framework facilities
outside the surface listed in the spec, for example nn.CrossEntropyLoss and
torch.exp. -/
theorem c6_counterexample :
    ¬ ((part000Facilities ++ exercisesFacilities).all
        (fun f => specListedSurface.contains f) = true) ∧
    Facility.crossEntropyLoss ∈ part000Facilities ∧
    Facility.crossEntropyLoss ∉ specListedSurface ∧
    Facility.tensorExp ∈ part000Facilities ∧
    Facility.tensorExp ∉ specListedSurface := by
  decide

/-- Claim C6 amended: beyond the listed surface the notebooks also call a
cross-entropy loss, elementwise power, mean, exponential and division,
tensor reshaping and indexing, weight attribute access, gradient and graph
inspection, the backward call, scalar extraction, and a local plotting
helper module; within this enlarged surface the list is exhaustive, and
the notebooks still define no function, class, protocol, file format or
CLI of their own. -/
theorem c6_amended_api_surface :
    ((part000Facilities ++ exercisesFacilities).all
      (fun f => (specListedSurface ++ extraFacilities).contains f)) = true ∧
    ((part000CellShapes ++ exercisesCellShapes).all
      (fun c => c.defStmts == 0)) = true := by
  decide

/-- Claim C7: no cell of either notebook contains an exception-handling
construct, so in the exception semantics an error raised by a framework
call in any cell propagates to the caller uncaught, with no recovery. -/
theorem c7_no_error_handling :
    ((part000CellShapes ++ exercisesCellShapes).all
      (fun c => c.tryExcepts == 0)) = true ∧
    ∀ e : Nat, (part000CellShapes ++ exercisesCellShapes).map
        (fun c => runCellRaise c e) = List.replicate 33 (Except.error e) :=
  ⟨rfl, fun _ => rfl⟩

/-- Claim C8: in the final training loop of both notebooks
optimizer.zero_grad() precedes loss.backward() in every pass, and at every
optimizer.step() the gradient buffers hold exactly the current batch's
gradient — gradients never accumulate across batches or epochs, whatever
gradient state the loop starts from. -/
theorem c8_gradients_of_current_batch_only :
    firstIdx TrainOp.zeroGrad part000PassBody
      < firstIdx TrainOp.backward part000PassBody ∧
    firstIdx TrainOp.zeroGrad exercisesPassBody
      < firstIdx TrainOp.backward exercisesPassBody ∧
    ∀ (P : Type) (lossO : P → Nat → ℚ) (upd : P → List Nat → P)
      (batches : List Nat) (s : TrainState P),
      (runTraining part000TrainConfig lossO upd batches s).stepLog
        = s.stepLog ++ (List.replicate part000TrainConfig.epochs
            (batches.map fun b => [b])).flatten ∧
      (runTraining exercisesTrainConfig lossO upd batches s).stepLog
        = s.stepLog ++ (List.replicate exercisesTrainConfig.epochs
            (batches.map fun b => [b])).flatten := by
  refine ⟨by decide, by decide, ?_⟩
  intro P lossO upd batches s
  exact ⟨rangeFold_stepLog lossO upd batches 5 s,
         rangeFold_stepLog lossO upd batches 5 s⟩

/-- Claim C9: the value an epoch prints as Training loss equals the sum of
the per-batch loss values accumulated in running_loss over that epoch
divided by the number of batches in the loader (their arithmetic mean), and
it is printed exactly once per epoch, after the inner batch loop has
consumed every batch (the for/else). -/
theorem c9_printed_value_is_mean_of_batch_losses :
    ∀ (P : Type) (lossO : P → Nat → ℚ) (upd : P → List Nat → P)
      (batches : List Nat) (s : TrainState P),
      ((runEpoch lossO upd part000PassBody batches s).events
          = s.events ++ batches.map TrainEv.consume
              ++ [TrainEv.printLoss
                   ((runEpoch lossO upd part000PassBody batches s).epochLosses.sum
                      / (batches.length : ℚ))]
        ∧ (runEpoch lossO upd part000PassBody batches s).epochLosses.length
            = batches.length)
      ∧ ((runEpoch lossO upd exercisesPassBody batches s).events
          = s.events ++ batches.map TrainEv.consume
              ++ [TrainEv.printLoss
                   ((runEpoch lossO upd exercisesPassBody batches s).epochLosses.sum
                      / (batches.length : ℚ))]
        ∧ (runEpoch lossO upd exercisesPassBody batches s).epochLosses.length
            = batches.length) :=
  fun _ lossO upd batches s =>
    ⟨runEpoch_print_mean lossO upd batches s,
     runEpoch_print_mean lossO upd batches s⟩

/-- Claim C10 as stated is false: not every flattening outside the
single-step cell uses view(shape[0], -1) — the visualization cell of each
notebook flattens an image with the fixed view(1, 784). -/
theorem c10_counterexample :
    ¬ (∀ fs ∈ flattenSites, fs.method = FlattenMethod.resizeFixed 64 784
          ∨ fs.method = FlattenMethod.viewBatchAuto) ∧
    (⟨0, 16, FlattenMethod.viewFixed [1, 784]⟩ : FlattenSite) ∈ flattenSites := by
  decide

/-- Claim C10 amended: images.resize_(64, 784) leaves the batch data intact
exactly when it holds 64 * 784 elements, silently truncates a larger batch
and garbage-pads a smaller one, while view(shape[0], -1) preserves the data
for any nonzero batch size dividing the element count; in both notebooks
the single-step cell is the only resize_ site, the visualization cell
flattens a single image with the fixed view(1, 784), and every remaining
flattening — all the batch flattenings — uses view(shape[0], -1). -/
theorem c10_amended_resize_semantics :
    (∀ (α : Type) (pad : α) (t : Tensor α), t.data.length = 64 * 784 →
        (tensorResizeInPlace pad t [64, 784]).data = t.data) ∧
    (∀ (α : Type) (pad : α) (t : Tensor α), 64 * 784 < t.data.length →
        (tensorResizeInPlace pad t [64, 784]).data = t.data.take (64 * 784)) ∧
    (∀ (α : Type) (pad : α) (t : Tensor α), t.data.length < 64 * 784 →
        (tensorResizeInPlace pad t [64, 784]).data
          = t.data ++ List.replicate (64 * 784 - t.data.length) pad) ∧
    (∀ (α : Type) (t : Tensor α) (b cols : Nat), t.shape.headD 0 = b →
        0 < b → t.data.length = b * cols →
        tensorViewFlatten t = some { shape := [b, cols], data := t.data }) ∧
    (flattenSites.filter
        (fun fs => fs.method == FlattenMethod.resizeFixed 64 784)).map
        (fun fs => (fs.notebook, fs.cell)) = [(0, 13), (1, 13)] ∧
    (flattenSites.filter
        (fun fs => fs.method == FlattenMethod.viewFixed [1, 784])).map
        (fun fs => (fs.notebook, fs.cell)) = [(0, 16), (1, 16)] ∧
    (flattenSites.filter
        (fun fs => fs.method == FlattenMethod.viewBatchAuto)).map
        (fun fs => (fs.notebook, fs.cell))
      = [(0, 2), (0, 3), (0, 10), (0, 15), (1, 2), (1, 3), (1, 10), (1, 15)] := by
  have hprod : ([64, 784] : List Nat).prod = 64 * 784 := by norm_num [List.prod]
  refine ⟨?_, ?_, ?_, ?_, by decide, by decide, by decide⟩
  · intro α pad t h
    unfold tensorResizeInPlace
    rw [hprod, List.take_of_length_le (le_of_eq h), h]
    simp
  · intro α pad t h
    unfold tensorResizeInPlace
    rw [hprod, Nat.sub_eq_zero_of_le (le_of_lt h)]
    simp
  · intro α pad t h
    unfold tensorResizeInPlace
    rw [hprod, List.take_of_length_le (le_of_lt h)]
  · intro α t b cols hhead hb hlen
    simp only [tensorViewFlatten]
    rw [hhead, hlen]
    rw [if_pos ⟨hb.ne', Nat.mul_mod_right b cols⟩]
    rw [Nat.mul_div_cancel_left cols hb]

/-- Witness for the amended C10 theorem: a batch of fewer than 64 * 784
elements is garbage-padded by resize_(64, 784), and view(shape[0], -1)
reshapes a 3 by 4 tensor exactly. -/
theorem c10_amended_resize_semantics_witness :
    (tensorResizeInPlace false
        { shape := [2, 2], data := [true, false, true, false] } [64, 784]).data
      = [true, false, true, false]
          ++ List.replicate
              (64 * 784 - [true, false, true, false].length) false ∧
    tensorViewFlatten
        { shape := [3, 4], data := [0, 1, 2, 3, 4, 5, 6, 7, 8, 9, 10, 11] }
      = some { shape := [3, 4], data := [0, 1, 2, 3, 4, 5, 6, 7, 8, 9, 10, 11] } :=
  ⟨c10_amended_resize_semantics.2.2.1 Bool false
      { shape := [2, 2], data := [true, false, true, false] }
      (by norm_num),
   c10_amended_resize_semantics.2.2.2.1 Nat
      { shape := [3, 4], data := [0, 1, 2, 3, 4, 5, 6, 7, 8, 9, 10, 11] }
      3 4 rfl (by norm_num) (by decide)⟩

end TrainingNotebooks
